import Mathlib

/-!
Verification of the SO Against Invoice workflow engine
(`modules/so_against_invoice/routes.py`).

The five HTTP handlers (`get_so_series`, `validate_so_number`,
`validate_item`, `post_invoice`, `save_so_details`) are shallowly embedded
as pure Lean functions.  The SAP B1 gateway is modelled by an explicit
outcome parameter (`Remote` / `PostRemote`): either the gateway login
fails (`ensure_logged_in()` returns false), the HTTP call throws, or a
response with a status code and body is received.  Database state is
passed explicitly: the series cache is a list of rows, a document and its
line items are explicit values, and each handler returns the updated
state together with the JSON response it produces.  Flask-level routing,
`login_required`, and JSON parsing are outside the model; `data.get(k)`
on the request body is modelled by `Option` arguments, and Python
truthiness of the guard values is modelled by `truthyS` / `truthyI` /
`truthyN`.
-/

/-- Outcome of one remote call site guarded by `sap.ensure_logged_in()`:
the login fails, the call raises, or a response arrives with an HTTP
status code and a decoded body. -/
inductive Remote (α : Type) where
  | loginFailed : Remote α
  | exn : String → Remote α
  | resp : Nat → α → Remote α
deriving DecidableEq

/-- `remoteFetchFailed r` holds exactly when the call site falls through
to its fallback branch: login failed, the call threw, or the response
status is not 200 (the handlers only act on `status_code == 200`). -/
def remoteFetchFailed {α : Type} : Remote α → Bool
  | Remote.loginFailed => true
  | Remote.exn _ => true
  | Remote.resp status _ => status != 200

/-- Python truthiness of an optional string (`if not x` fails for a
present, non-empty string). -/
def truthyS : Option String → Bool
  | some s => !s.isEmpty
  | none => false

/-- Python truthiness of an optional integer (`0` and absence are falsy). -/
def truthyI : Option Int → Bool
  | some n => n != 0
  | none => false

/-- Python truthiness of an optional natural number (document ids). -/
def truthyN : Option Nat → Bool
  | some n => n != 0
  | none => false

/-- One series record of the SAP reply / the JSON response:
`{'Series': ..., 'SeriesName': ...}`. -/
structure SeriesEntry where
  series : Int
  seriesName : String
deriving DecidableEq

/-- One row of the local `SOSeries` cache table. -/
structure SOSeriesRow where
  series : Int
  series_name : String
deriving DecidableEq

/-- The fixed offline fallback list returned by `get_so_series` when both
the remote fetch fails and the cache is empty. -/
def mockSeriesList : List SeriesEntry :=
  [⟨11, "Primary"⟩, ⟨243, "SO2526"⟩, ⟨173, "SO AVS23"⟩]

/-- The caching loop body of `get_so_series`: insert a fetched series
into the cache only when no cached row with that series code exists;
an existing row is left untouched. -/
def seriesCacheInsert (cache : List SOSeriesRow) (e : SeriesEntry) : List SOSeriesRow :=
  if cache.any (fun r => r.series == e.series) then cache
  else cache ++ [⟨e.series, e.seriesName⟩]

/-- JSON response shape of `get_so_series`. -/
structure SeriesResponse where
  success : Bool
  httpStatus : Nat
  series : List SeriesEntry
  error : Option String
deriving DecidableEq

/-- The fallback return of `get_so_series`: the cached rows when the
cache is non-empty, otherwise the fixed mock list; always a success. -/
def seriesFallback (cache : List SOSeriesRow) : SeriesResponse :=
  if cache.isEmpty then ⟨true, 200, mockSeriesList, none⟩
  else ⟨true, 200, cache.map (fun r => ⟨r.series, r.series_name⟩), none⟩

/-- Handler `get_so_series` (routes.py lines 137-199).  On a 200 reply it
caches each returned series (insert-if-absent) and returns the remote
list verbatim; on login failure, a thrown call, or a non-200 status it
returns `seriesFallback`.  The second component is the cache after the
call.  (The outer `except` branch, reached only when the handler body
itself raises, e.g. on a database error, is outside the model.) -/
def get_so_series (cache : List SOSeriesRow) (remote : Remote (List SeriesEntry)) :
    SeriesResponse × List SOSeriesRow :=
  match remote with
  | Remote.resp status series_list =>
      if status == 200 then
        (⟨true, 200, series_list, none⟩, series_list.foldl seriesCacheInsert cache)
      else (seriesFallback cache, cache)
  | Remote.exn _ => (seriesFallback cache, cache)
  | Remote.loginFailed => (seriesFallback cache, cache)

/-- One row of the `Get_SO_Details` SQL-query reply; the handler only
reads its `DocEntry` key (absent keys give `None`). -/
structure SODetailRow where
  docEntry : Option Int
deriving DecidableEq

/-- JSON response shape of `validate_so_number`. -/
structure ValidateSOResponse where
  success : Bool
  httpStatus : Nat
  doc_entry : Option Int
  error : Option String
  message : Option String
deriving DecidableEq

/-- The offline-mode mock reply of `validate_so_number`: fixed entry id
1248 with an "(offline mode)" success message. -/
def validateSOMock (so : String) : ValidateSOResponse :=
  ⟨true, 200, some 1248, none,
    some ("SO " ++ so ++ " validated successfully (offline mode)")⟩

/-- Handler `validate_so_number` (routes.py lines 203-261).  Both inputs
are required (Python truthiness).  On a 200 reply with a non-empty row
list the first row's `DocEntry` is returned; on a 200 reply with an empty
list a 404 not-found error is returned; on login failure, a thrown call,
or a non-200 status the handler falls through to the offline mock
(`doc_entry` 1248). -/
def validate_so_number (so_number : Option String) (series : Option Int)
    (remote : Remote (List SODetailRow)) : ValidateSOResponse :=
  if truthyS so_number && truthyI series then
    let so := so_number.getD ""
    let ser := series.getD 0
    match remote with
    | Remote.resp status rows =>
        if status == 200 then
          match rows with
          | r :: _ =>
              ⟨true, 200, r.docEntry, none,
                some ("SO " ++ so ++ " validated successfully")⟩
          | [] =>
              ⟨false, 404, none,
                some ("SO Number " ++ so ++ " not found in Series " ++ toString ser),
                none⟩
        else validateSOMock so
    | Remote.exn _ => validateSOMock so
    | Remote.loginFailed => validateSOMock so
  else ⟨false, 400, none, some "SO Number and Series are required", none⟩

/-- One row of the `Series_Validation` SQL-query reply, echoed back as
`serial_info`; the offline mock builds one from the request fields. -/
structure SerialInfo where
  distNumber : Option String
  itemCode : Option String
  whsCode : Option String
deriving DecidableEq

/-- JSON response shape of `validate_item`. -/
structure ItemValidateResponse where
  success : Bool
  httpStatus : Nat
  validated : Bool
  item_type : Option String
  serial_info : Option SerialInfo
  quantity : Option Int
  offline_mode : Bool
  error : Option String
  message : Option String
deriving DecidableEq

/-- Handler `validate_item` (routes.py lines 345-434).  `quantity`
defaults to 1 and `item_type` to `"serial"`.  Missing item or warehouse
code is a 400.  The serial branch (taken only when `item_type` is
`"serial"` and a truthy serial value is supplied) is the only branch that
contacts the gateway; the second component records whether the gateway
was contacted at all (`ensure_logged_in` reached).  `item_type` equal to
`"serial"` without a serial value, and any unrecognized `item_type`, fall
to the final `else`: a 400 with no gateway contact. -/
def validate_item (item_code warehouse_code serial_number : Option String)
    (quantity : Option Int) (item_type : Option String)
    (remote : Remote (List SerialInfo)) : ItemValidateResponse × Bool :=
  let qty := quantity.getD 1
  let itype := item_type.getD "serial"
  if !(truthyS item_code && truthyS warehouse_code) then
    (⟨false, 400, false, none, none, none, false,
       some "ItemCode and WarehouseCode are required", none⟩, false)
  else if itype == "serial" && truthyS serial_number then
    let serial := serial_number.getD ""
    match remote with
    | Remote.resp status rows =>
        if status == 200 then
          match rows with
          | info :: _ =>
              (⟨true, 200, true, some "serial", some info, none, false, none,
                 some ("Serial " ++ serial ++ " validated successfully")⟩, true)
          | [] =>
              (⟨false, 200, false, none, none, none, false,
                 some ("Serial " ++ serial ++ " not found for item " ++
                   item_code.getD "" ++ " in warehouse " ++ warehouse_code.getD ""),
                 none⟩, true)
        else
          (⟨true, 200, true, some "serial",
             some ⟨some serial, item_code, warehouse_code⟩, none, true, none,
             some ("Serial " ++ serial ++ " validated successfully (offline mode)")⟩,
           true)
    | Remote.exn _ =>
        (⟨true, 200, true, some "serial",
           some ⟨some serial, item_code, warehouse_code⟩, none, true, none,
           some ("Serial " ++ serial ++ " validated successfully (offline mode)")⟩,
         true)
    | Remote.loginFailed =>
        (⟨true, 200, true, some "serial",
           some ⟨some serial, item_code, warehouse_code⟩, none, true, none,
           some ("Serial " ++ serial ++ " validated successfully (offline mode)")⟩,
         true)
  else if itype == "non_serial" then
    (⟨true, 200, true, some "non_serial", none, some qty, false, none,
       some ("Quantity " ++ toString qty ++ " validated for item " ++
         item_code.getD "")⟩, false)
  else
    (⟨false, 400, false, none, none, none, false,
       some "Invalid item type or missing required fields", none⟩, false)

/-- The authenticated `current_user` fields the handlers read. -/
structure User where
  id : Nat
  username : String
  role : String
deriving DecidableEq

/-- One `SOInvoiceSerial` row attached to a line item. -/
structure SOInvoiceSerial where
  serial_number : String
  quantity : Int
  base_line_number : Int
deriving DecidableEq

/-- One `SOInvoiceItem` row; `serial_numbers` is the item's serial
allocation collection. -/
structure SOInvoiceItem where
  so_invoice_id : Nat
  line_num : Option Int
  item_code : Option String
  item_description : Option String
  so_quantity : Option Int
  warehouse_code : Option String
  validated_quantity : Int
  serial_numbers : List SOInvoiceSerial
deriving DecidableEq

/-- The `SOInvoiceDocument` fields the workflow handlers read or write.
Date columns (`doc_date`, `doc_due_date`, timestamps) only feed the SAP
payload and are not modelled. -/
structure SOInvoiceDocument where
  id : Nat
  document_number : String
  user_id : Nat
  so_series : Option Int
  so_series_name : Option String
  so_number : Option String
  so_doc_entry : Option Int
  card_code : Option String
  card_name : Option String
  customer_address : Option String
  status : String
  sap_invoice_number : Option String
  posting_error : Option String
deriving DecidableEq

/-- The permission check shared by `detail` (routes.py lines 122-124) and
`post_invoice` (lines 455-459): access is granted to admins, managers,
and the owning user. -/
def accessAllowed (u : User) (document : SOInvoiceDocument) : Bool :=
  (u.role == "admin" || u.role == "manager") || document.user_id == u.id

/-- Handler `detail` (routes.py lines 114-133), reduced to its observable
decision: whether the page is rendered (`true`) or the request is turned
away with an access-denied flash (`false`). -/
def detail (u : User) (document : SOInvoiceDocument) : Bool :=
  accessAllowed u document

/-- Python `str(...)` on the optional `DocNum` of a SAP posting reply. -/
def pyStr : Option Int → String
  | some n => toString n
  | none => "None"

/-- Python `f"{n:06d}"` for a natural number: decimal digits left-padded
with zeros to a minimum width of six. -/
def pad6 (n : Nat) : String :=
  String.mk (List.replicate (6 - (toString n).length) (Char.ofNat 48)) ++ toString n

/-- The synthesized offline result identifier of `post_invoice`
(routes.py line 549): `f"INV{document.id:06d}"`. -/
def offlineInvoiceNumber (docId : Nat) : String := "INV" ++ pad6 docId

/-- Outcome of the posting call site of `post_invoice`: login failure,
a thrown call, or a response carrying the HTTP status, the decoded
`DocNum` (absent keys give `None`), and the raw response text used in the
error message. -/
inductive PostRemote where
  | loginFailed : PostRemote
  | exn : String → PostRemote
  | resp : Nat → Option Int → String → PostRemote
deriving DecidableEq

/-- JSON response shape of `post_invoice`. -/
structure PostResponse where
  success : Bool
  httpStatus : Nat
  sap_doc_num : Option String
  offline_mode : Bool
  error : Option String
  message : Option String
deriving DecidableEq

/-- One line of the SAP invoice payload built by `post_invoice`
(routes.py lines 481-499); serial rows are attached when present. -/
structure InvoiceLine where
  itemCode : Option String
  itemDescription : Option String
  quantity : Int
  warehouseCode : Option String
  serialNumbers : List SOInvoiceSerial
deriving DecidableEq

/-- The line-building loop of `post_invoice`: one payload line per stored
item, quantity taken from `validated_quantity`. -/
def buildInvoiceLines (items : List SOInvoiceItem) : List InvoiceLine :=
  items.map (fun item =>
    ⟨item.item_code, item.item_description, item.validated_quantity,
      item.warehouse_code, item.serial_numbers⟩)

/-- Handler `post_invoice` (routes.py lines 438-567), modelled from the
point where the document row has been loaded (`data.get('doc_id')`
missing is a 400 and an unknown id a 404 before that point, with no state
touched).  Returns the JSON response, the document row as committed, the
(untouched) item rows, and whether the gateway was contacted at all
(`ensure_logged_in` reached).  Access is denied to non-owners who are
neither admin nor manager; an empty item set is a 400 before any gateway
contact; a 200/201 posting reply commits `status = 'posted'` with the
SAP `DocNum`; any other status or a thrown call commits
`status = 'failed'` with the error text; a failed login commits
`status = 'posted'` with the synthesized offline identifier. -/
def post_invoice (u : User) (document : SOInvoiceDocument)
    (items : List SOInvoiceItem) (remote : PostRemote) :
    PostResponse × SOInvoiceDocument × List SOInvoiceItem × Bool :=
  if !accessAllowed u document then
    (⟨false, 403, none, false, some "Access denied", none⟩, document, items, false)
  else if items.isEmpty then
    (⟨false, 400, none, false, some "Cannot post invoice without line items", none⟩,
      document, items, false)
  else
    match remote with
    | PostRemote.resp status docNum text =>
        if status == 200 || status == 201 then
          let committed := { document with
            sap_invoice_number := some (pyStr docNum), status := "posted" }
          (⟨true, 200, some (pyStr docNum), false, none,
             some ("Invoice posted successfully to SAP B1. DocNum: " ++ pyStr docNum)⟩,
            committed, items, true)
        else
          let error_msg :=
            "SAP B1 error: " ++ toString status ++ " - " ++ text
          let committed := { document with
            posting_error := some error_msg, status := "failed" }
          (⟨false, 400, none, false, some error_msg, none⟩, committed, items, true)
    | PostRemote.exn m =>
        let error_msg := "Error posting to SAP B1: " ++ m
        let committed := { document with
          posting_error := some error_msg, status := "failed" }
        (⟨false, 500, none, false, some error_msg, none⟩, committed, items, true)
    | PostRemote.loginFailed =>
        let committed := { document with
          sap_invoice_number := some (offlineInvoiceNumber document.id),
          status := "posted" }
        (⟨true, 200, some (offlineInvoiceNumber document.id), true, none,
           some ("Invoice posted successfully (offline mode). DocNum: " ++
             offlineInvoiceNumber document.id)⟩,
          committed, items, true)

/-- One entry of the `DocumentLines` list inside the saved SO snapshot
(absent keys give `None`). -/
structure OrderLine where
  lineNum : Option Int
  itemCode : Option String
  itemDescription : Option String
  quantity : Option Int
  warehouseCode : Option String
deriving DecidableEq

/-- The `order` object inside the saved SO snapshot. -/
structure OrderSnapshot where
  cardCode : Option String
  cardName : Option String
  address : Option String
  documentLines : List OrderLine
deriving DecidableEq

/-- The `so_details` request payload of `save_so_details`. -/
structure SODetailsPayload where
  so_number : Option String
  doc_entry : Option Int
  order : Option OrderSnapshot
deriving DecidableEq

/-- The `series_info` request payload of `save_so_details`. -/
structure SeriesInfoPayload where
  series : Option Int
  series_name : Option String
deriving DecidableEq

/-- JSON response shape of `save_so_details`. -/
structure SaveResponse where
  success : Bool
  httpStatus : Nat
  error : Option String
  message : Option String
deriving DecidableEq

/-- The item row `save_so_details` creates for one snapshot line
(routes.py lines 604-614): `validated_quantity` starts at 0 and no
serial rows exist yet. -/
def lineToItem (docId : Nat) (line : OrderLine) : SOInvoiceItem :=
  ⟨docId, line.lineNum, line.itemCode, line.itemDescription, line.quantity,
    line.warehouseCode, 0, []⟩

/-- Handler `save_so_details` (routes.py lines 570-629), modelled from
the point where the document row for a truthy `doc_id` has been loaded
(an unknown id is a 404 with no state touched; a missing/zero `doc_id`
or absent payload object is the 400 branch).  The `current_user`
argument is accepted but never consulted: the handler performs no
ownership or role check.  It overwrites the document's series/source/
counterparty fields, sets `status = 'validated'`, deletes every stored
item of this document (`filter_by(so_invoice_id=doc_id).delete()`), and
re-inserts one item per snapshot line.  `items` is the full item table;
rows of other documents are kept.  A missing `order` key behaves as an
empty dict: all header gets give `None` and `DocumentLines` is empty. -/
def save_so_details (_u : User) (doc_id : Option Nat)
    (so_details : Option SODetailsPayload) (series_info : Option SeriesInfoPayload)
    (document : SOInvoiceDocument) (items : List SOInvoiceItem) :
    SaveResponse × SOInvoiceDocument × List SOInvoiceItem :=
  match doc_id, so_details, series_info with
  | some did, some sd, some si =>
      if did == 0 then
        (⟨false, 400, some "Missing required data", none⟩, document, items)
      else
        let order := sd.order.getD ⟨none, none, none, []⟩
        let committed := { document with
          so_series := si.series,
          so_series_name := si.series_name,
          so_number := sd.so_number,
          so_doc_entry := sd.doc_entry,
          card_code := order.cardCode,
          card_name := order.cardName,
          customer_address := order.address,
          status := "validated" }
        let kept := items.filter (fun item => item.so_invoice_id != did)
        let inserted := order.documentLines.map (lineToItem did)
        (⟨true, 200, none, some "SO details saved successfully"⟩,
          committed, kept ++ inserted)
  | _, _, _ => (⟨false, 400, some "Missing required data", none⟩, document, items)

theorem seriesCacheInsert_foldl_split (rows : List SeriesEntry) (cache : List SOSeriesRow) :
    ∃ inserted, rows.foldl seriesCacheInsert cache = cache ++ inserted ∧
      ∀ r ∈ inserted, ∀ c ∈ cache, c.series ≠ r.series := by
  induction rows generalizing cache with
  | nil => exact ⟨[], by simp⟩
  | cons e rest ih =>
      simp only [List.foldl_cons]
      by_cases h : cache.any (fun r => r.series == e.series) = true
      · have hid : seriesCacheInsert cache e = cache := by
          simp [seriesCacheInsert, h]
        rw [hid]
        exact ih cache
      · have hins : seriesCacheInsert cache e = cache ++ [⟨e.series, e.seriesName⟩] := by
          simp only [seriesCacheInsert, h, if_false, Bool.false_eq_true]
        rw [hins]
        obtain ⟨inserted2, heq, habs⟩ := ih (cache ++ [⟨e.series, e.seriesName⟩])
        refine ⟨⟨e.series, e.seriesName⟩ :: inserted2, by simpa using heq, ?_⟩
        intro r hr c hc
        rcases List.mem_cons.mp hr with hr1 | hr1
        · subst hr1
          intro hcon
          exact h (List.any_eq_true.mpr ⟨c, hc, by simp [hcon]⟩)
        · exact habs r hr1 c (List.mem_append_left _ hc)

/-- C2: whenever the remote series fetch fails (login failure, thrown
call, or non-200 status), `get_so_series` reports success with the cache
contents when the cache is non-empty and with the fixed three-entry
fallback set otherwise, and leaves the cache unchanged. -/
theorem C2_series_remote_failure_fallback (cache : List SOSeriesRow)
    (remote : Remote (List SeriesEntry)) (h : remoteFetchFailed remote = true) :
    (get_so_series cache remote).1.success = true ∧
    (get_so_series cache remote).1.series =
      (if cache.isEmpty then
        [⟨11, "Primary"⟩, ⟨243, "SO2526"⟩, ⟨173, "SO AVS23"⟩]
       else cache.map (fun r => ⟨r.series, r.series_name⟩)) ∧
    (get_so_series cache remote).2 = cache := by
  cases remote with
  | loginFailed =>
      by_cases hc : cache.isEmpty <;>
        simp [get_so_series, seriesFallback, mockSeriesList, hc]
  | exn m =>
      by_cases hc : cache.isEmpty <;>
        simp [get_so_series, seriesFallback, mockSeriesList, hc]
  | resp status body =>
      have hs : (status == 200) = false := by
        simp only [remoteFetchFailed, bne_iff_ne, ne_eq] at h
        simp [h]
      by_cases hc : cache.isEmpty <;>
        simp [get_so_series, seriesFallback, mockSeriesList, hs, hc]

theorem C2_series_remote_failure_fallback_witness :
    remoteFetchFailed (Remote.loginFailed : Remote (List SeriesEntry)) = true ∧
    ((get_so_series [] Remote.loginFailed).1.success = true ∧
     (get_so_series [] Remote.loginFailed).1.series =
       (if List.isEmpty ([] : List SOSeriesRow) then
         [⟨11, "Primary"⟩, ⟨243, "SO2526"⟩, ⟨173, "SO AVS23"⟩]
        else List.map (fun r : SOSeriesRow => (⟨r.series, r.series_name⟩ : SeriesEntry))
          []) ∧
     (get_so_series [] Remote.loginFailed).2 = []) :=
  ⟨rfl, C2_series_remote_failure_fallback [] Remote.loginFailed rfl⟩

/-- C9: on a successful (200) remote series fetch, `get_so_series`
returns the remote list verbatim as a success, and the new cache is the
old cache (every pre-existing row kept unmodified, in place) followed by
some inserted rows, each of whose series codes was absent from the old
cache. -/
theorem C9_series_cache_upsert (cache : List SOSeriesRow) (rows : List SeriesEntry) :
    (get_so_series cache (Remote.resp 200 rows)).1 = ⟨true, 200, rows, none⟩ ∧
    ∃ inserted, (get_so_series cache (Remote.resp 200 rows)).2 = cache ++ inserted ∧
      ∀ r ∈ inserted, ∀ c ∈ cache, c.series ≠ r.series := by
  constructor
  · rfl
  · simpa [get_so_series] using seriesCacheInsert_foldl_split rows cache

/-- C3: with both inputs supplied, a 200 reply with an empty result list
makes `validate_so_number` return a not-found failure (404 with an error
message, no entry id) and never the offline mock; the mock reply with
entry id 1248 is produced exactly when the fetch fails (login failure,
thrown call, or non-200 status); and on a 200 reply with rows the
returned entry id is the first row's own `DocEntry`. -/
theorem C3_validate_so_not_found_vs_offline (so : String) (ser : Int)
    (remote : Remote (List SODetailRow))
    (hso : truthyS (some so) = true) (hser : truthyI (some ser) = true) :
    (remote = Remote.resp 200 [] →
      validate_so_number (some so) (some ser) remote =
        ⟨false, 404, none,
          some ("SO Number " ++ so ++ " not found in Series " ++ toString ser),
          none⟩) ∧
    (remoteFetchFailed remote = true →
      validate_so_number (some so) (some ser) remote = validateSOMock so) ∧
    (∀ r rest, remote = Remote.resp 200 (r :: rest) →
      validate_so_number (some so) (some ser) remote =
        ⟨true, 200, r.docEntry, none,
          some ("SO " ++ so ++ " validated successfully")⟩) := by
  have hguard : (truthyS (some so) && truthyI (some ser)) = true := by
    simp [hso, hser]
  refine ⟨?_, ?_, ?_⟩
  · rintro rfl
    simp [validate_so_number, hguard]
  · intro hf
    cases remote with
    | loginFailed => simp [validate_so_number, hguard]
    | exn m => simp [validate_so_number, hguard]
    | resp status rows =>
        have hs : (status == 200) = false := by
          simp only [remoteFetchFailed, bne_iff_ne, ne_eq] at hf
          simp [hf]
        simp [validate_so_number, hguard, hs]
  · rintro r rest rfl
    simp [validate_so_number, hguard]

theorem C3_validate_so_not_found_vs_offline_witness :
    truthyS (some "SO-100") = true ∧ truthyI (some (11 : Int)) = true ∧
    ((Remote.resp 200 ([] : List SODetailRow) = Remote.resp 200 [] →
      validate_so_number (some "SO-100") (some 11) (Remote.resp 200 []) =
        ⟨false, 404, none,
          some ("SO Number " ++ "SO-100" ++ " not found in Series " ++ toString (11 : Int)),
          none⟩) ∧
     (remoteFetchFailed (Remote.resp 200 ([] : List SODetailRow)) = true →
      validate_so_number (some "SO-100") (some 11) (Remote.resp 200 []) =
        validateSOMock "SO-100") ∧
     (∀ r rest, Remote.resp 200 ([] : List SODetailRow) = Remote.resp 200 (r :: rest) →
      validate_so_number (some "SO-100") (some 11) (Remote.resp 200 []) =
        ⟨true, 200, r.docEntry, none,
          some ("SO " ++ "SO-100" ++ " validated successfully")⟩)) :=
  ⟨by decide, by decide,
    C3_validate_so_not_found_vs_offline "SO-100" 11 (Remote.resp 200 [])
      (by decide) (by decide)⟩

/-- C8: with item and warehouse codes supplied, an unrecognized
`item_type` (neither `"serial"` nor `"non_serial"`), or `item_type`
`"serial"` with no truthy serial value, makes `validate_item` return the
400 input-validation error without any gateway contact. -/
theorem C8_validate_item_input_errors
    (item_code warehouse_code serial_number : Option String)
    (quantity : Option Int) (itype : String) (remote : Remote (List SerialInfo))
    (hic : truthyS item_code = true) (hwc : truthyS warehouse_code = true)
    (h : (itype ≠ "serial" ∧ itype ≠ "non_serial") ∨
         (itype = "serial" ∧ truthyS serial_number = false)) :
    validate_item item_code warehouse_code serial_number quantity (some itype) remote =
      (⟨false, 400, false, none, none, none, false,
         some "Invalid item type or missing required fields", none⟩, false) := by
  rcases h with ⟨h1, h2⟩ | ⟨h1, h2⟩
  · have e1 : (itype == "serial") = false := by simp [h1]
    have e2 : (itype == "non_serial") = false := by simp [h2]
    simp [validate_item, hic, hwc, e1, e2]
  · subst h1
    simp [validate_item, hic, hwc, h2]

theorem C8_validate_item_input_errors_witness :
    truthyS (some "IPhone") = true ∧ truthyS (some "7000-FG") = true ∧
    (("batch" ≠ "serial" ∧ "batch" ≠ "non_serial") ∨
      ("batch" = "serial" ∧ truthyS (none : Option String) = false)) ∧
    validate_item (some "IPhone") (some "7000-FG") none (some 2) (some "batch")
        (Remote.loginFailed : Remote (List SerialInfo)) =
      (⟨false, 400, false, none, none, none, false,
         some "Invalid item type or missing required fields", none⟩, false) :=
  ⟨by decide, by decide, Or.inl ⟨by decide, by decide⟩,
    C8_validate_item_input_errors (some "IPhone") (some "7000-FG") none (some 2)
      "batch" Remote.loginFailed (by decide) (by decide)
      (Or.inl ⟨by decide, by decide⟩)⟩

/-- C5: posting a document with an empty line-item set (for a caller who
passes the permission check) is a 400 failure with a structured error,
contacts the gateway on no branch, and returns the document row exactly
as it was: status, result identifier, and error field untouched. -/
theorem C5_post_empty_items (u : User) (document : SOInvoiceDocument)
    (remote : PostRemote) (hacc : accessAllowed u document = true) :
    post_invoice u document [] remote =
      (⟨false, 400, none, false, some "Cannot post invoice without line items", none⟩,
        document, [], false) := by
  simp [post_invoice, hacc]

theorem C5_post_empty_items_witness :
    accessAllowed ⟨7, "alice", "admin"⟩
      ⟨5, "SOINV-1", 9, none, none, none, none, none, none, none, "validated",
        none, none⟩ = true ∧
    post_invoice ⟨7, "alice", "admin"⟩
        ⟨5, "SOINV-1", 9, none, none, none, none, none, none, none, "validated",
          none, none⟩ [] PostRemote.loginFailed =
      (⟨false, 400, none, false, some "Cannot post invoice without line items", none⟩,
        ⟨5, "SOINV-1", 9, none, none, none, none, none, none, none, "validated",
          none, none⟩, [], false) :=
  ⟨by decide,
    C5_post_empty_items ⟨7, "alice", "admin"⟩
      ⟨5, "SOINV-1", 9, none, none, none, none, none, none, none, "validated",
        none, none⟩ PostRemote.loginFailed (by decide)⟩

/-- C6: when the gateway is reachable but the posting reply carries a
status other than 200/201, `post_invoice` commits the document with
status `failed` and a non-empty posting-error text, and returns a
structured 400 failure carrying that same message. -/
theorem C6_post_remote_failure (u : User) (document : SOInvoiceDocument)
    (items : List SOInvoiceItem) (status : Nat) (docNum : Option Int)
    (text : String) (hacc : accessAllowed u document = true)
    (hitems : items ≠ []) (h200 : status ≠ 200) (h201 : status ≠ 201) :
    post_invoice u document items (PostRemote.resp status docNum text) =
      (⟨false, 400, none, false,
         some ("SAP B1 error: " ++ toString status ++ " - " ++ text), none⟩,
        { document with
          posting_error := some ("SAP B1 error: " ++ toString status ++ " - " ++ text),
          status := "failed" },
        items, true) ∧
    ("SAP B1 error: " ++ toString status ++ " - " ++ text) ≠ "" := by
  have hie : items.isEmpty = false := by
    cases items with
    | nil => exact absurd rfl hitems
    | cons a l => rfl
  have hst : (status == 200 || status == 201) = false := by
    simp [h200, h201]
  refine ⟨by simp [post_invoice, hacc, hie, hst], ?_⟩
  intro hcon
  have h1 := congrArg String.length hcon
  rw [String.length_append, String.length_append, String.length_append] at h1
  have h2 : ("SAP B1 error: ").length = 14 := rfl
  have h3 : (" - ").length = 3 := rfl
  have h4 : ("" : String).length = 0 := rfl
  omega

theorem C6_post_remote_failure_witness :
    accessAllowed ⟨7, "alice", "manager"⟩
      ⟨5, "SOINV-1", 9, none, none, none, none, none, none, none, "validated",
        none, none⟩ = true ∧
    ([(⟨5, some 0, some "IPhone", some "12 Series", some 10, some "7000-FG", 10, []⟩ :
        SOInvoiceItem)] ≠ []) ∧
    (400 : Nat) ≠ 200 ∧ (400 : Nat) ≠ 201 ∧
    (post_invoice ⟨7, "alice", "manager"⟩
        ⟨5, "SOINV-1", 9, none, none, none, none, none, none, none, "validated",
          none, none⟩
        [⟨5, some 0, some "IPhone", some "12 Series", some 10, some "7000-FG", 10, []⟩]
        (PostRemote.resp 400 none "Bad Request") =
      (⟨false, 400, none, false,
         some ("SAP B1 error: " ++ toString (400 : Nat) ++ " - " ++ "Bad Request"),
         none⟩,
        { (⟨5, "SOINV-1", 9, none, none, none, none, none, none, none, "validated",
            none, none⟩ : SOInvoiceDocument) with
          posting_error :=
            some ("SAP B1 error: " ++ toString (400 : Nat) ++ " - " ++ "Bad Request"),
          status := "failed" },
        [⟨5, some 0, some "IPhone", some "12 Series", some 10, some "7000-FG", 10, []⟩],
        true) ∧
     ("SAP B1 error: " ++ toString (400 : Nat) ++ " - " ++ "Bad Request") ≠ "") :=
  ⟨by decide, by decide, by decide, by decide,
    C6_post_remote_failure ⟨7, "alice", "manager"⟩
      ⟨5, "SOINV-1", 9, none, none, none, none, none, none, none, "validated",
        none, none⟩
      [⟨5, some 0, some "IPhone", some "12 Series", some 10, some "7000-FG", 10, []⟩]
      400 none "Bad Request" (by decide) (by decide) (by decide) (by decide)⟩

/-- C7: posting a non-empty document when the gateway login fails commits
the document with status `posted` and the synthesized identifier
`"INV"` followed by the document id zero-padded to six digits, and
returns success carrying that identifier. -/
theorem C7_post_offline_synthesized (u : User) (document : SOInvoiceDocument)
    (items : List SOInvoiceItem) (hacc : accessAllowed u document = true)
    (hitems : items ≠ []) :
    post_invoice u document items PostRemote.loginFailed =
      (⟨true, 200, some ("INV" ++ pad6 document.id), true, none,
         some ("Invoice posted successfully (offline mode). DocNum: " ++
           ("INV" ++ pad6 document.id))⟩,
        { document with
          sap_invoice_number := some ("INV" ++ pad6 document.id),
          status := "posted" },
        items, true) := by
  have hie : items.isEmpty = false := by
    cases items with
    | nil => exact absurd rfl hitems
    | cons a l => rfl
  simp [post_invoice, hacc, hie, offlineInvoiceNumber]

theorem C7_post_offline_synthesized_witness :
    accessAllowed ⟨7, "alice", "user"⟩
      ⟨42, "SOINV-42", 7, none, none, none, none, none, none, none, "validated",
        none, none⟩ = true ∧
    ([(⟨42, some 0, some "IPhone", some "12 Series", some 10, some "7000-FG", 10, []⟩ :
        SOInvoiceItem)] ≠ []) ∧
    post_invoice ⟨7, "alice", "user"⟩
        ⟨42, "SOINV-42", 7, none, none, none, none, none, none, none, "validated",
          none, none⟩
        [⟨42, some 0, some "IPhone", some "12 Series", some 10, some "7000-FG", 10, []⟩]
        PostRemote.loginFailed =
      (⟨true, 200, some "INV000042", true, none,
         some ("Invoice posted successfully (offline mode). DocNum: " ++ "INV000042")⟩,
        { (⟨42, "SOINV-42", 7, none, none, none, none, none, none, none, "validated",
            none, none⟩ : SOInvoiceDocument) with
          sap_invoice_number := some "INV000042",
          status := "posted" },
        [⟨42, some 0, some "IPhone", some "12 Series", some 10, some "7000-FG", 10, []⟩],
        true) := by
  refine ⟨by decide, by decide, ?_⟩
  have h := C7_post_offline_synthesized ⟨7, "alice", "user"⟩
    ⟨42, "SOINV-42", 7, none, none, none, none, none, none, none, "validated",
      none, none⟩
    [⟨42, some 0, some "IPhone", some "12 Series", some 10, some "7000-FG", 10, []⟩]
    (by decide) (by decide)
  simpa [pad6] using h

theorem saveItems_filter_stable (did : Nat) (lines : List OrderLine)
    (items : List SOInvoiceItem) :
    ((items.filter (fun item => item.so_invoice_id != did) ++
        lines.map (lineToItem did)).filter
      (fun item => item.so_invoice_id != did)) =
      items.filter (fun item => item.so_invoice_id != did) := by
  rw [List.filter_append]
  have h1 : ((items.filter (fun item => item.so_invoice_id != did)).filter
      (fun item => item.so_invoice_id != did)) =
      items.filter (fun item => item.so_invoice_id != did) :=
    List.filter_eq_self.mpr (fun a ha => (List.mem_filter.mp ha).2)
  have h2 : ((lines.map (lineToItem did)).filter
      (fun item => item.so_invoice_id != did)) = [] := by
    refine List.filter_eq_nil_iff.mpr ?_
    intro a ha
    obtain ⟨line, _, rfl⟩ := List.mem_map.mp ha
    simp [lineToItem]
  rw [h1, h2, List.append_nil]

/-- C4: with a well-formed payload, `save_so_details` is a full-replace
idempotent: running it a second time on the state it produced yields the
very same response, document row, and item table; every stored item of
the document carries `validated_quantity` 0 after the call; and
`post_invoice` never changes the item table (the only other handler
touching the document aggregate). -/
theorem C4_save_so_details_idempotent (u : User) (did : Nat)
    (sd : SODetailsPayload) (si : SeriesInfoPayload)
    (document : SOInvoiceDocument) (items : List SOInvoiceItem)
    (hdid : did ≠ 0) :
    (save_so_details u (some did) (some sd) (some si)
        (save_so_details u (some did) (some sd) (some si) document items).2.1
        (save_so_details u (some did) (some sd) (some si) document items).2.2) =
      save_so_details u (some did) (some sd) (some si) document items ∧
    (∀ item ∈ (save_so_details u (some did) (some sd) (some si) document items).2.2,
      item.so_invoice_id = did → item.validated_quantity = 0) ∧
    (∀ v doc2 items2 remote, (post_invoice v doc2 items2 remote).2.2.1 = items2) := by
  have h0 : (did == 0) = false := by simp [hdid]
  refine ⟨?_, ?_, ?_⟩
  · simp only [save_so_details, h0, Bool.false_eq_true, if_false]
    rw [saveItems_filter_stable]
  · simp only [save_so_details, h0, Bool.false_eq_true, if_false]
    intro item hmem hid
    rcases List.mem_append.mp hmem with hk | hi
    · have := (List.mem_filter.mp hk).2
      simp [hid] at this
    · obtain ⟨line, _, rfl⟩ := List.mem_map.mp hi
      rfl
  · intro v doc2 items2 remote
    cases hacc : accessAllowed v doc2 with
    | false => simp [post_invoice, hacc]
    | true =>
        cases hie : items2.isEmpty with
        | true => simp [post_invoice, hacc, hie]
        | false =>
            cases remote with
            | loginFailed => simp [post_invoice, hacc, hie]
            | exn m => simp [post_invoice, hacc, hie]
            | resp status docNum text =>
                cases hst : (status == 200 || status == 201) with
                | true => simp [post_invoice, hacc, hie, hst]
                | false => simp [post_invoice, hacc, hie, hst]

theorem C4_save_so_details_idempotent_witness :
    (5 : Nat) ≠ 0 ∧
    ((save_so_details ⟨7, "alice", "user"⟩ (some 5)
        (some ⟨some "SO-100", some 1248,
          some ⟨some "3D SEALS", some "3D SEALS PRIVATE LIMITED", some "Mumbai",
            [⟨some 0, some "IPhone", some "12 Series", some 10, some "7000-FG"⟩]⟩⟩)
        (some ⟨some 11, some "Primary"⟩)
        (save_so_details ⟨7, "alice", "user"⟩ (some 5)
          (some ⟨some "SO-100", some 1248,
            some ⟨some "3D SEALS", some "3D SEALS PRIVATE LIMITED", some "Mumbai",
              [⟨some 0, some "IPhone", some "12 Series", some 10, some "7000-FG"⟩]⟩⟩)
          (some ⟨some 11, some "Primary"⟩)
          ⟨5, "SOINV-1", 7, none, none, none, none, none, none, none, "draft",
            none, none⟩ []).2.1
        (save_so_details ⟨7, "alice", "user"⟩ (some 5)
          (some ⟨some "SO-100", some 1248,
            some ⟨some "3D SEALS", some "3D SEALS PRIVATE LIMITED", some "Mumbai",
              [⟨some 0, some "IPhone", some "12 Series", some 10, some "7000-FG"⟩]⟩⟩)
          (some ⟨some 11, some "Primary"⟩)
          ⟨5, "SOINV-1", 7, none, none, none, none, none, none, none, "draft",
            none, none⟩ []).2.2) =
      save_so_details ⟨7, "alice", "user"⟩ (some 5)
        (some ⟨some "SO-100", some 1248,
          some ⟨some "3D SEALS", some "3D SEALS PRIVATE LIMITED", some "Mumbai",
            [⟨some 0, some "IPhone", some "12 Series", some 10, some "7000-FG"⟩]⟩⟩)
        (some ⟨some 11, some "Primary"⟩)
        ⟨5, "SOINV-1", 7, none, none, none, none, none, none, none, "draft",
          none, none⟩ []) :=
  ⟨by decide,
    (C4_save_so_details_idempotent ⟨7, "alice", "user"⟩ 5
      ⟨some "SO-100", some 1248,
        some ⟨some "3D SEALS", some "3D SEALS PRIVATE LIMITED", some "Mumbai",
          [⟨some 0, some "IPhone", some "12 Series", some 10, some "7000-FG"⟩]⟩⟩
      ⟨some 11, some "Primary"⟩
      ⟨5, "SOINV-1", 7, none, none, none, none, none, none, none, "draft",
        none, none⟩ [] (by decide)).1⟩

/-- C10: `save_so_details` performs no ownership or role check: for a
caller who is neither admin nor manager and does not own the document, a
well-formed call still succeeds, sets the document to `validated`, and
its entire outcome is independent of the calling user — while
`post_invoice` answers the same caller with a 403 access denial and
`detail` turns the same caller away. -/
theorem C10_save_no_ownership_check (u v : User) (did : Nat)
    (sd : SODetailsPayload) (si : SeriesInfoPayload)
    (document : SOInvoiceDocument) (items : List SOInvoiceItem)
    (hdid : did ≠ 0) (hadmin : u.role ≠ "admin") (hmanager : u.role ≠ "manager")
    (howner : document.user_id ≠ u.id) :
    (save_so_details u (some did) (some sd) (some si) document items).1.success =
      true ∧
    (save_so_details u (some did) (some sd) (some si) document items).2.1.status =
      "validated" ∧
    save_so_details u (some did) (some sd) (some si) document items =
      save_so_details v (some did) (some sd) (some si) document items ∧
    (∀ items2 remote, (post_invoice u document items2 remote).1 =
      ⟨false, 403, none, false, some "Access denied", none⟩) ∧
    detail u document = false := by
  have h0 : (did == 0) = false := by simp [hdid]
  have hna : accessAllowed u document = false := by
    simp [accessAllowed, hadmin, hmanager, howner]
  refine ⟨?_, ?_, rfl, ?_, ?_⟩
  · simp [save_so_details, h0]
  · simp [save_so_details, h0]
  · intro items2 remote
    simp [post_invoice, hna]
  · simp [detail, hna]

theorem C10_save_no_ownership_check_witness :
    (5 : Nat) ≠ 0 ∧ ("user" : String) ≠ "admin" ∧ ("user" : String) ≠ "manager" ∧
    (9 : Nat) ≠ 3 ∧
    ((save_so_details ⟨3, "bob", "user"⟩ (some 5)
        (some ⟨some "SO-100", some 1248,
          some ⟨some "3D SEALS", some "3D SEALS PRIVATE LIMITED", some "Mumbai",
            [⟨some 0, some "IPhone", some "12 Series", some 10, some "7000-FG"⟩]⟩⟩)
        (some ⟨some 11, some "Primary"⟩)
        ⟨5, "SOINV-1", 9, none, none, none, none, none, none, none, "validated",
          none, none⟩ []).1.success = true ∧
     (save_so_details ⟨3, "bob", "user"⟩ (some 5)
        (some ⟨some "SO-100", some 1248,
          some ⟨some "3D SEALS", some "3D SEALS PRIVATE LIMITED", some "Mumbai",
            [⟨some 0, some "IPhone", some "12 Series", some 10, some "7000-FG"⟩]⟩⟩)
        (some ⟨some 11, some "Primary"⟩)
        ⟨5, "SOINV-1", 9, none, none, none, none, none, none, none, "validated",
          none, none⟩ []).2.1.status = "validated" ∧
     save_so_details ⟨3, "bob", "user"⟩ (some 5)
        (some ⟨some "SO-100", some 1248,
          some ⟨some "3D SEALS", some "3D SEALS PRIVATE LIMITED", some "Mumbai",
            [⟨some 0, some "IPhone", some "12 Series", some 10, some "7000-FG"⟩]⟩⟩)
        (some ⟨some 11, some "Primary"⟩)
        ⟨5, "SOINV-1", 9, none, none, none, none, none, none, none, "validated",
          none, none⟩ [] =
       save_so_details ⟨1, "boss", "admin"⟩ (some 5)
        (some ⟨some "SO-100", some 1248,
          some ⟨some "3D SEALS", some "3D SEALS PRIVATE LIMITED", some "Mumbai",
            [⟨some 0, some "IPhone", some "12 Series", some 10, some "7000-FG"⟩]⟩⟩)
        (some ⟨some 11, some "Primary"⟩)
        ⟨5, "SOINV-1", 9, none, none, none, none, none, none, none, "validated",
          none, none⟩ [] ∧
     (∀ items2 remote,
       (post_invoice ⟨3, "bob", "user"⟩
          ⟨5, "SOINV-1", 9, none, none, none, none, none, none, none, "validated",
            none, none⟩ items2 remote).1 =
         ⟨false, 403, none, false, some "Access denied", none⟩) ∧
     detail ⟨3, "bob", "user"⟩
        ⟨5, "SOINV-1", 9, none, none, none, none, none, none, none, "validated",
          none, none⟩ = false) :=
  ⟨by decide, by decide, by decide, by decide,
    C10_save_no_ownership_check ⟨3, "bob", "user"⟩ ⟨1, "boss", "admin"⟩ 5
      ⟨some "SO-100", some 1248,
        some ⟨some "3D SEALS", some "3D SEALS PRIVATE LIMITED", some "Mumbai",
          [⟨some 0, some "IPhone", some "12 Series", some 10, some "7000-FG"⟩]⟩⟩
      ⟨some 11, some "Primary"⟩
      ⟨5, "SOINV-1", 9, none, none, none, none, none, none, none, "validated",
        none, none⟩ [] (by decide) (by decide) (by decide) (by decide)⟩

/-- C1 (as frozen) fails on the code: a concrete document whose status is
`posted` is moved back to `validated` by a successful `save_so_details`
call, so status is not monotonic along draft → validated → posted under
all public operations. -/
theorem C1_counterexample_posted_to_validated :
    (⟨5, "SOINV-1", 7, some 11, some "Primary", some "SO-100", some 1248,
       some "3D SEALS", some "3D SEALS PRIVATE LIMITED", some "Mumbai", "posted",
       some "INV000005", none⟩ : SOInvoiceDocument).status = "posted" ∧
    (save_so_details ⟨7, "alice", "user"⟩ (some 5)
        (some ⟨some "SO-100", some 1248,
          some ⟨some "3D SEALS", some "3D SEALS PRIVATE LIMITED", some "Mumbai",
            [⟨some 0, some "IPhone", some "12 Series", some 10, some "7000-FG"⟩]⟩⟩)
        (some ⟨some 11, some "Primary"⟩)
        ⟨5, "SOINV-1", 7, some 11, some "Primary", some "SO-100", some 1248,
          some "3D SEALS", some "3D SEALS PRIVATE LIMITED", some "Mumbai", "posted",
          some "INV000005", none⟩ []).1.success = true ∧
    (save_so_details ⟨7, "alice", "user"⟩ (some 5)
        (some ⟨some "SO-100", some 1248,
          some ⟨some "3D SEALS", some "3D SEALS PRIVATE LIMITED", some "Mumbai",
            [⟨some 0, some "IPhone", some "12 Series", some 10, some "7000-FG"⟩]⟩⟩)
        (some ⟨some 11, some "Primary"⟩)
        ⟨5, "SOINV-1", 7, some 11, some "Primary", some "SO-100", some 1248,
          some "3D SEALS", some "3D SEALS PRIVATE LIMITED", some "Mumbai", "posted",
          some "INV000005", none⟩ []).2.1.status = "validated" := by
  refine ⟨rfl, rfl, rfl⟩

/-- C1 (amended): `post_invoice` either leaves the status unchanged or
sets it to `posted` or `failed` (so a posted document never returns to
`validated` or `draft` through posting), and `failed` is reachable only
through `post_invoice`: `save_so_details` either leaves the status
unchanged or sets it to `validated` — with no regression guard, so it
does move a `posted` document back to `validated` (see the
counterexample), which is the one part of the frozen claim the code
violates. -/
theorem C1_amended_status_transitions (u : User) (document : SOInvoiceDocument)
    (items : List SOInvoiceItem) (remote : PostRemote) (doc_id : Option Nat)
    (sd : Option SODetailsPayload) (si : Option SeriesInfoPayload) :
    ((post_invoice u document items remote).2.1.status = document.status ∨
      (post_invoice u document items remote).2.1.status = "posted" ∨
      (post_invoice u document items remote).2.1.status = "failed") ∧
    ((save_so_details u doc_id sd si document items).2.1.status = document.status ∨
      (save_so_details u doc_id sd si document items).2.1.status = "validated") ∧
    ((save_so_details u doc_id sd si document items).2.1.status ≠ "failed" ∨
      document.status = "failed") := by
  have hpost : (post_invoice u document items remote).2.1.status = document.status ∨
      (post_invoice u document items remote).2.1.status = "posted" ∨
      (post_invoice u document items remote).2.1.status = "failed" := by
    cases hacc : accessAllowed u document with
    | false => simp [post_invoice, hacc]
    | true =>
        cases hie : items.isEmpty with
        | true => simp [post_invoice, hacc, hie]
        | false =>
            cases remote with
            | loginFailed => simp [post_invoice, hacc, hie]
            | exn m => simp [post_invoice, hacc, hie]
            | resp status docNum text =>
                cases hst : (status == 200 || status == 201) with
                | true => simp [post_invoice, hacc, hie, hst]
                | false => simp [post_invoice, hacc, hie, hst]
  have hsave : (save_so_details u doc_id sd si document items).2.1.status =
      document.status ∨
      (save_so_details u doc_id sd si document items).2.1.status = "validated" := by
    rcases doc_id with _ | did
    · simp [save_so_details]
    · rcases sd with _ | sdv
      · simp [save_so_details]
      · rcases si with _ | siv
        · simp [save_so_details]
        · cases h0 : (did == 0) with
          | true => simp [save_so_details, h0]
          | false => simp [save_so_details, h0]
  refine ⟨hpost, hsave, ?_⟩
  rcases hsave with hs | hs
  · by_cases hd : document.status = "failed"
    · exact Or.inr hd
    · exact Or.inl (by rw [hs]; exact hd)
  · exact Or.inl (by rw [hs]; decide)
